import Mathlib

/-!
Verification development for the gnes repository: a shallow embedding of
`src/nes/base/__init__.py` (TrainableBase / TrainableType: constructor-argument
capture, trained-state lifecycle, structured (YAML) and binary (pickle)
serialization) and `gnes/encoder/w2v.py` (Word2VecEncoder: vector-table load
and mean-pooling encode), together with theorems settling the specification
claims about them.
-/

set_option autoImplicit false

namespace Gnes

/-- Plain Python values as they occur in constructor arguments and in an
object's `__dict__`.  `vnone` is Python `None`; `vparamEmpty` is
`inspect.Parameter.empty` (the default recorded for a parameter that has no
declared default); `vlogger name verbose` is the handle returned by
`set_logger(name, verbose)`; `vcache path` is `MemoryCache(cache_path=path)`;
`vvec` / `vtable` are the numpy vector and the token→vector dict of the
encoder (vector entries modelled as rationals). -/
inductive Value where
  | vstr (s : String)
  | vint (n : Int)
  | vbool (b : Bool)
  | vnone
  | vparamEmpty
  | vlogger (name : String) (verbose : Value)
  | vcache (path : String)
  | vvec (xs : List ℚ)
  | vtable (t : List (String × List ℚ))
  deriving DecidableEq

/-- Keyword-argument collections and captured configurations are ordered
string-keyed association lists, like Python dicts. -/
abbrev KwDict := List (String × Value)

/-- The effective value of declared parameter `k` in a constructor call with
positional `args` and keyword `kwargs`, as computed by
`TrainableType._store_init_kwargs`: the dict starts from the declared
defaults, positional arguments are aligned with the declared parameter list
(`zip(tmp_list, args)`), and keyword arguments whose name is declared
overwrite last. -/
def effectiveArg (params : List String) (dflt : String → Value)
    (args : List Value) (kwargs : KwDict) (k : String) : Value :=
  match List.lookup k kwargs with
  | some v => v
  | none =>
    match List.lookup k (params.zip args) with
    | some v => v
    | none => dflt k

/-- The configuration dict `tmp` built by `TrainableType._store_init_kwargs`
(with `store_args_kwargs = False`, its default): one entry per declared
parameter (excluding `self`/`args`/`kwargs`), holding its effective value. -/
def store_init_kwargs (params : List String) (dflt : String → Value)
    (args : List Value) (kwargs : KwDict) : KwDict :=
  params.map (fun k => (k, effectiveArg params dflt args kwargs k))

/-- A class in the `TrainableBase` family, described by the data its wrapped
constructor consumes: the declared parameter names of `__init__` (minus
`self`, `*args`, `**kwargs`), their declared defaults, the value of
`is_trained` that the constructor body leaves (the base `__init__` sets it
`False`; `Word2VecEncoder.__init__` then sets it `True`), and whether the
constructor body assigns `self.batch_size` from its `batch_size` parameter
(`Word2VecEncoder` does; the bare base class does not, in which case the
metaclass `__call__` fills the default `None`). -/
structure ClassDef where
  params : List String
  dflt : String → Value
  initTrained : Bool
  setsBatch : Bool

/-- The slice of a constructed object's state that the structured (YAML)
serialization claims are about: the captured `_init_kwargs_dict` and the two
whitelisted lifecycle properties of `TrainableType.default_property`. -/
structure Obj where
  initKwargs : KwDict
  is_trained : Bool
  batch_size : Value
  deriving DecidableEq

/-- Constructing an instance `cls(*args, **kwargs)`: the wrapped `__init__`
captures `_init_kwargs_dict`, the constructor body establishes `is_trained`
and (for classes that assign it) `batch_size`, and `TrainableType.__call__`
fills `batch_size = None` when the body did not set it. -/
def construct (C : ClassDef) (args : List Value) (kwargs : KwDict) : Obj :=
  { initKwargs := store_init_kwargs C.params C.dflt args kwargs
    is_trained := C.initTrained
    batch_size :=
      if C.setsBatch then effectiveArg C.params C.dflt args kwargs "batch_size"
      else Value.vnone }

/-- The effect on the trained flag of a `train()` call that completes without
error: `TrainableType._as_train_func` assigns `self.is_trained = True` after
the wrapped body returns. -/
def trainIf (b : Bool) (o : Obj) : Obj :=
  if b then { o with is_trained := true } else o

/-- The structured (YAML) document produced by `_dump_instance_to_yaml`:
top-level keys `parameter` and `property` ([] models an absent key, which
`data.get(..., {})` reads back as empty). -/
structure YamlDoc where
  parameter : KwDict
  property : KwDict
  deriving DecidableEq

/-- The non-default whitelisted properties dumped by `_dump_instance_to_yaml`:
iterating `TrainableType.default_property` (insertion order: `is_trained`
then `batch_size`), keep each property whose current value differs from its
default (`False` resp. `None`). -/
def nonDefaultProps (o : Obj) : KwDict :=
  (if o.is_trained = false then [] else [("is_trained", Value.vbool o.is_trained)]) ++
  (if o.batch_size = Value.vnone then [] else [("batch_size", o.batch_size)])

/-- `TrainableBase._dump_instance_to_yaml`: dump the captured constructor
configuration and the non-default whitelisted properties. -/
def dump_instance_to_yaml (o : Obj) : YamlDoc :=
  { parameter := o.initKwargs, property := nonDefaultProps o }

/-- `setattr(obj, k, v)` for a key in the structured document's `property`
section, on the modelled slice of state.  `is_trained` is a `Bool` field in
this model, so only boolean values are representable there (the dumper only
ever emits booleans for it); setting any other attribute leaves the modelled
slice unchanged. -/
def applyProp (o : Obj) (kv : String × Value) : Obj :=
  if kv.1 = "is_trained" then
    match kv.2 with
    | Value.vbool b => { o with is_trained := b }
    | _ => o
  else if kv.1 = "batch_size" then { o with batch_size := kv.2 }
  else o

/-- `TrainableBase._get_instance_from_yaml` with `store_args_kwargs = False`
(the default): construct `cls(**data.get('parameter', {}))`, then `setattr`
each entry of `data.get('property', {})`. -/
def get_instance_from_yaml (C : ClassDef) (d : YamlDoc) : Obj :=
  d.property.foldl applyProp (construct C [] d.parameter)

/-- One structured round trip: `load_structured(dump_structured(o))`. -/
def yamlRoundTrip (C : ClassDef) (o : Obj) : Obj :=
  get_instance_from_yaml C (dump_instance_to_yaml o)

/-- `Word2VecEncoder.__init__`'s declared parameters and defaults
(`model_dir` has no default, so `inspect` records `Parameter.empty`); the
body sets `self.is_trained = True` and assigns `self.batch_size`. -/
def w2vClass : ClassDef :=
  { params := ["model_dir", "skiprows", "batch_size", "dimension", "pooling_strategy"]
    dflt := fun k =>
      if k = "skiprows" then Value.vint 1
      else if k = "batch_size" then Value.vint 64
      else if k = "dimension" then Value.vint 300
      else if k = "pooling_strategy" then Value.vstr "REDUCE_MEAN"
      else Value.vparamEmpty
    initTrained := true
    setsBatch := true }

/-- `TrainableBase` itself: `__init__(self, *args, **kwargs)` declares no
capturable parameters, leaves `is_trained = False` and does not assign
`batch_size`. -/
def baseClass : ClassDef :=
  { params := []
    dflt := fun _ => Value.vparamEmpty
    initTrained := false
    setsBatch := false }

/-- Errors raised by the `TrainableBase` machinery.  `preconditionError` is
the spec's name for the `RuntimeError` that `_train_required` raises when the
component is untrained. -/
inductive NesError where
  | preconditionError (msg : String)
  deriving DecidableEq

/-- The message of the error `_train_required` raises:
`'training is required before calling "%s"' % func.__name__`. -/
def trainRequiredMsg (funcName : String) : String :=
  "training is required before calling \"" ++ funcName ++ "\""

/-- `TrainableBase._train_required`: the guard wrapping an operation `func`
(of name `funcName`); if `self.is_trained` it delegates to the wrapped
operation, otherwise it raises. -/
def trainRequired {α : Type} (funcName : String) (func : Obj → α) (o : Obj) :
    Except NesError α :=
  if o.is_trained then Except.ok (func o)
  else Except.error (NesError.preconditionError (trainRequiredMsg funcName))

/-- The warning emitted by `TrainableType._as_train_func` when `train` is
called on an already-trained component. -/
def overrideWarning (clsName : String) : String :=
  "\"" ++ clsName ++ "\" has been trained already, training it again will override the previous training"

/-- `TrainableType._as_train_func`: the wrapper installed around `train`.
It emits the override warning when the component is already trained, runs the
wrapped body, and — only if the body returned without error — sets
`is_trained = True`.  The result pairs the emitted warning-level messages
with the body's outcome. -/
def asTrainFunc {α : Type} (clsName : String)
    (func : Obj → Except NesError (α × Obj)) (o : Obj) :
    List String × Except NesError (α × Obj) :=
  let warnings := if o.is_trained then [overrideWarning clsName] else []
  match func o with
  | Except.ok (a, o') => (warnings, Except.ok (a, { o' with is_trained := true }))
  | Except.error e => (warnings, Except.error e)

/-- `TrainableBase.train`'s body is `pass`: it returns `None` and changes
nothing, and never fails. -/
def baseTrainBody (o : Obj) : Except NesError (Value × Obj) :=
  Except.ok (Value.vnone, o)

/-! ### Binary serialization (`__getstate__` / `__setstate__`), claim C9

The pickle protocol hooks operate generically on the instance `__dict__`,
modelled as an ordered association list. -/

/-- Python `del d[k]`: removes the key, raising `KeyError` (modelled as
`none`) when the key is absent. -/
def delKey (d : KwDict) (k : String) : Option KwDict :=
  if (List.lookup k d).isSome then some (d.filter (fun kv => kv.1 != k))
  else Option.none

/-- Python `d[k] = v` on a dict: overwrite in place when the key exists
(keeping its position), append otherwise. -/
def setKey (d : KwDict) (k : String) (v : Value) : KwDict :=
  if (List.lookup k d).isSome then
    d.map (fun kv => if kv.1 = k then (k, v) else kv)
  else d ++ [(k, v)]

/-- The handle `set_logger(clsName, verbose)` produces; called with the same
arguments by both `TrainableBase.__init__` and
`TrainableBase.__setstate__`. -/
def set_logger_handle (clsName : String) (verbose : Value) : Value :=
  Value.vlogger clsName verbose

/-- The handle `MemoryCache(cache_path='.nes_cache')` produces; built with
this same expression by both `TrainableBase.__init__` and
`TrainableBase.__setstate__`. -/
def memory_cache_handle : Value :=
  Value.vcache ".nes_cache"

/-- `TrainableBase.__getstate__`: copy `self.__dict__` and delete the two
runtime handles `logger` and `memcached`. -/
def getstate_base (d : KwDict) : Option KwDict :=
  (delKey d "logger").bind (fun d1 => delKey d1 "memcached")

/-- `Word2VecEncoder.__getstate__`: the base projection, then also delete the
loaded vector table `word2vec_df` and the derived zero-vector `empty`. -/
def getstate_w2v (d : KwDict) : Option KwDict :=
  (getstate_base d).bind
    (fun d1 => (delKey d1 "word2vec_df").bind (fun d2 => delKey d2 "empty"))

/-- `TrainableBase.__setstate__`: `self.__dict__.update(d)` on the freshly
unpickled instance, then re-create `self.logger` with
`set_logger(self.__class__.__name__, self.verbose)` and `self.memcached` with
`MemoryCache(cache_path='.nes_cache')` — the same initialization logic as in
`__init__`. -/
def setstate_base (clsName : String) (d : KwDict) : KwDict :=
  setKey
    (setKey d "logger"
      (set_logger_handle clsName ((List.lookup "verbose" d).getD Value.vnone)))
    "memcached" memory_cache_handle

/-- A concrete fully initialized encoder `__dict__`, used as the C9
witness input. -/
def c9WitnessDict : KwDict :=
  [("_init_kwargs_dict", Value.vnone),
   ("is_trained", Value.vbool true),
   ("verbose", Value.vbool false),
   ("logger", Value.vlogger "Word2VecEncoder" (Value.vbool false)),
   ("memcached", Value.vcache ".nes_cache"),
   ("model_dir", Value.vstr "/models/w2v"),
   ("word2vec_df", Value.vtable [("a", [1, 0]), ("b", [3, 0])]),
   ("empty", Value.vvec [0, 0])]

/-- The property claimed of the binary-serialization boundary for an encoder
state dict `d`: `__getstate__` (base and encoder) succeeds and excludes
exactly the named non-serializable attributes while leaving every other field
unchanged, and `__setstate__` re-creates the two runtime handles from the
same initialization logic as normal construction
(`set_logger_handle` / `memory_cache_handle`) while leaving the persisted
fields untouched. -/
def BinaryFrameSpec (cls : String) (d : KwDict) : Prop :=
  ∃ db d' : KwDict,
    getstate_base d = some db ∧
    getstate_w2v d = some d' ∧
    (∀ k, k ≠ "logger" → k ≠ "memcached" → List.lookup k db = List.lookup k d) ∧
    List.lookup "logger" db = none ∧
    List.lookup "memcached" db = none ∧
    (∀ k, k ≠ "logger" → k ≠ "memcached" → k ≠ "word2vec_df" → k ≠ "empty" →
      List.lookup k d' = List.lookup k d) ∧
    List.lookup "logger" d' = none ∧
    List.lookup "memcached" d' = none ∧
    List.lookup "word2vec_df" d' = none ∧
    List.lookup "empty" d' = none ∧
    List.lookup "logger" (setstate_base cls d') =
      some (set_logger_handle cls ((List.lookup "verbose" d').getD Value.vnone)) ∧
    List.lookup "memcached" (setstate_base cls d') = some memory_cache_handle ∧
    (∀ k, k ≠ "logger" → k ≠ "memcached" →
      List.lookup k (setstate_base cls d') = List.lookup k d')

/-! ### Word2VecEncoder (`gnes/encoder/w2v.py`), claims C2-C5 -/

/-- Errors arising in `encode`.  `attributeError a` models Python's
`AttributeError` for a missing attribute `a`; `unsupportedConfiguration` is
the error the spec says a non-mean pooling strategy should raise. -/
inductive EncodeError where
  | attributeError (attr : String)
  | unsupportedConfiguration
  deriving DecidableEq

/-- `np.zeros([dim])`. -/
def zeroVec (dim : Nat) : List ℚ :=
  List.replicate dim 0

/-- Elementwise vector addition (numpy array addition on equal-length
vectors). -/
def vadd (v w : List ℚ) : List ℚ :=
  List.zipWith (· + ·) v w

/-- `np.mean(pool, axis=0)` over a list of equal-length vectors: the
elementwise arithmetic mean.  `none` models the NaN numpy produces when the
pool is empty (mean over an empty sequence). -/
def poolMean (vs : List (List ℚ)) : Option (List ℚ) :=
  match vs with
  | [] => Option.none
  | v :: rest => some ((rest.foldl vadd v).map (fun x => x / (((v :: rest).length : ℚ))))

/-- The slice of `Word2VecEncoder` state that `encode` reads: the loaded
table `self.word2vec_df`, the fallback vector `self.empty`, the configured
dimension and the configured (never consulted) pooling strategy. -/
structure W2VState where
  word2vec_df : List (String × List ℚ)
  empty : List ℚ
  dimension : Nat
  pooling_strategy : String
  deriving DecidableEq

/-- The pooled data `encode` computes before its final line: tokenize each
input string, look up each token in `self.word2vec_df` with the
`self.empty` fallback (`dict.get(token, self.empty)`), then
`np.mean(..., axis=0)` per input, preserving input order. -/
def encodePooled (e : W2VState) (tok : String → List String)
    (texts : List String) : List (Option (List ℚ)) :=
  texts.map (fun sent =>
    poolMean ((tok sent).map (fun t => (List.lookup t e.word2vec_df).getD e.empty)))

/-- `Word2VecEncoder.encode` as written in the source: after computing the
pooled data it evaluates `np.array(pooled_data).astye(np.float32)`, and
`ndarray` has no attribute `astye` (a typo for `astype`), so every call
raises `AttributeError` instead of returning. -/
def encode (e : W2VState) (tok : String → List String)
    (texts : List String) : Except EncodeError (List (Option (List ℚ))) :=
  let _pooled_data := encodePooled e tok texts
  Except.error (EncodeError.attributeError "astye")

/-- `encode` with the one-character fix `astye → astype`: returns the pooled
data. -/
def encodeFixed (e : W2VState) (tok : String → List String)
    (texts : List String) : Except EncodeError (List (Option (List ℚ))) :=
  Except.ok (encodePooled e tok texts)

/-- A concrete stand-in for the external tokenizer collaborator
(`cn_tokenizer.tokenize`), fixed on the witness inputs: "a b" tokenizes to
its two words, "a" to one, and every other string — in particular the empty
string — to zero tokens. -/
def tok0 (s : String) : List String :=
  if s = "a b" then ["a", "b"] else if s = "a" then ["a"] else []

/-- A concrete two-entry vector table of dimension 2. -/
def df0 : List (String × List ℚ) :=
  [("a", [1, 0]), ("b", [3, 0])]

/-- A concrete encoder state over `df0` with the default (mean) pooling
strategy. -/
def e0 : W2VState :=
  { word2vec_df := df0, empty := zeroVec 2, dimension := 2
    pooling_strategy := "REDUCE_MEAN" }

/-- `e0` reconfigured with a non-mean pooling strategy. -/
def eMax : W2VState :=
  { e0 with pooling_strategy := "REDUCE_MAX" }

/-! ### `Word2VecEncoder._post_init` (vector-table load), claim C4

A model file is modelled as the list of its lines, each already stripped and
split on single spaces (`line.strip().split(' ')`), i.e. a list of field
lists; `val` models Python `float` parsing of a numeric field. -/

/-- `self.word2vec_df[line[0]] = np.array(...)`: Python dict assignment —
overwrite in place when the token is already present, append otherwise. -/
def dictInsert (df : List (String × List ℚ)) (k : String) (v : List ℚ) :
    List (String × List ℚ) :=
  if (List.lookup k df).isSome then
    df.map (fun kv => if kv.1 = k then (k, v) else kv)
  else df ++ [(k, v)]

/-- The loop of `Word2VecEncoder._post_init` over the file's lines: the
first `skiprows` lines are skipped (the counter increments only on skipped
lines); a remaining line is retained iff `len(line) > dimension`, storing
`line[0] ↦ [float(i) for i in line[1:]]` — the whole tail of the line, not
truncated to `dimension` entries. -/
def load_rows (val : String → ℚ) (skiprows dim : Nat) :
    Nat → List (List String) → List (String × List ℚ) → List (String × List ℚ)
  | _, [], df => df
  | count, line :: ls, df =>
    if count < skiprows then load_rows val skiprows dim (count + 1) ls df
    else
      match line with
      | [] => load_rows val skiprows dim count ls df
      | t :: rest =>
        if dim < (t :: rest).length then
          load_rows val skiprows dim count ls (dictInsert df t (rest.map val))
        else load_rows val skiprows dim count ls df

/-- `Word2VecEncoder._post_init`: build `word2vec_df` from the model file's
lines, starting from the empty dict and a zero skip counter. -/
def post_init (val : String → ℚ) (skiprows dim : Nat)
    (lines : List (List String)) : List (String × List ℚ) :=
  load_rows val skiprows dim 0 lines []

/-- The first fields (tokens) of the qualifying rows: rows that survive the
header skip and have field count at least `dim + 1`, in file order. -/
def qualTokens (skiprows dim : Nat) : Nat → List (List String) → List String
  | _, [] => []
  | count, line :: ls =>
    if count < skiprows then qualTokens skiprows dim (count + 1) ls
    else
      match line with
      | [] => qualTokens skiprows dim count ls
      | t :: rest =>
        if dim < (t :: rest).length then t :: qualTokens skiprows dim count ls
        else qualTokens skiprows dim count ls

/-- Append a key if not already present: the effect of one dict insertion on
the ordered key list. -/
def insKey (ks : List String) (k : String) : List String :=
  if k ∈ ks then ks else ks ++ [k]

/-- A concrete numeric-field parser standing in for Python `float` on the
witness file's fields. -/
def val0 (s : String) : ℚ :=
  if s = "1" then 1
  else if s = "2" then 2
  else if s = "3" then 3
  else if s = "4" then 4
  else if s = "5" then 5
  else 0

/-- A concrete model file for dimension 2 with one header row: a qualifying
row with one field too many, a duplicate-token row, and a distinct-token row
with one field too many. -/
def c4File : List (List String) :=
  [["4", "2"], ["a", "1", "2", "3"], ["a", "4", "5"], ["b", "1", "2", "3"]]

/-! ### Theorems settling the claims, with supporting lemmas -/

theorem lookup_map_self {f : String → Value} {ps : List String} {k : String}
    (hk : k ∈ ps) :
    List.lookup k (ps.map (fun k' => (k', f k'))) = some (f k) := by
  induction ps with
  | nil => cases hk
  | cons a as ih =>
    simp only [List.map_cons, List.lookup]
    by_cases h : k = a
    · simp [h]
    · have hba : (k == a) = false := beq_false_of_ne h
      rw [hba]
      exact ih (by rcases List.mem_cons.mp hk with h1 | h1; exact absurd h1 h; exact h1)

theorem effectiveArg_recapture (params : List String) (dflt : String → Value)
    (args : List Value) (kwargs : KwDict) {k : String} (hk : k ∈ params) :
    effectiveArg params dflt [] (store_init_kwargs params dflt args kwargs) k =
      effectiveArg params dflt args kwargs k := by
  unfold effectiveArg store_init_kwargs
  rw [lookup_map_self hk]
  rfl

theorem store_init_kwargs_recapture (params : List String) (dflt : String → Value)
    (args : List Value) (kwargs : KwDict) :
    store_init_kwargs params dflt [] (store_init_kwargs params dflt args kwargs) =
      store_init_kwargs params dflt args kwargs := by
  conv_lhs => rw [store_init_kwargs]
  conv_rhs => rw [store_init_kwargs]
  exact List.map_congr_left
    (fun k hk => by rw [effectiveArg_recapture params dflt args kwargs hk])

theorem yamlRoundTrip_fix (C : ClassDef) (o : Obj)
    (h1 : store_init_kwargs C.params C.dflt [] o.initKwargs = o.initKwargs)
    (h2 : o.is_trained = false → C.initTrained = false)
    (h3 : o.batch_size = Value.vnone →
      (if C.setsBatch then
        effectiveArg C.params C.dflt [] o.initKwargs "batch_size"
      else Value.vnone) = Value.vnone) :
    yamlRoundTrip C o = o := by
  obtain ⟨ik, it, bs⟩ := o
  simp only at h1 h2 h3
  unfold yamlRoundTrip get_instance_from_yaml dump_instance_to_yaml nonDefaultProps
  cases it with
  | false =>
    have hC : C.initTrained = false := h2 rfl
    by_cases hb : bs = Value.vnone
    · subst hb
      simp [construct, applyProp, h1, hC, h3 rfl]
    · simp [construct, applyProp, h1, hC, hb]
  | true =>
    by_cases hb : bs = Value.vnone
    · subst hb
      simp [construct, applyProp, h1, h3 rfl]
    · simp [construct, applyProp, h1, hb]

/-- C1: structured-serialization round trip.  For every component built by a
constructor call on a class of the `TrainableBase` family (and possibly
trained afterwards), applying `dump_structured` then `load_structured` twice
in succession yields a component whose captured constructor configuration and
whose non-default whitelisted properties (trained-flag, batch-size) are
identical to the original's.  The one well-formedness hypothesis records that
a constructor body assigning `self.batch_size` takes `batch_size` as a
declared parameter, as `Word2VecEncoder.__init__` does. -/
theorem c1_structured_roundtrip_twice (C : ClassDef) (args : List Value)
    (kwargs : KwDict) (b : Bool)
    (hwf : C.setsBatch = true → "batch_size" ∈ C.params) :
    ((yamlRoundTrip C (yamlRoundTrip C (trainIf b (construct C args kwargs)))).initKwargs =
        (trainIf b (construct C args kwargs)).initKwargs) ∧
      nonDefaultProps (yamlRoundTrip C (yamlRoundTrip C (trainIf b (construct C args kwargs)))) =
        nonDefaultProps (trainIf b (construct C args kwargs)) := by
  set c := trainIf b (construct C args kwargs) with hc
  have hik : c.initKwargs = store_init_kwargs C.params C.dflt args kwargs := by
    cases b <;> simp [hc, trainIf, construct]
  have hbs : c.batch_size =
      (if C.setsBatch then effectiveArg C.params C.dflt args kwargs "batch_size"
       else Value.vnone) := by
    cases b <;> simp [hc, trainIf, construct]
  have h1 : store_init_kwargs C.params C.dflt [] c.initKwargs = c.initKwargs := by
    rw [hik]; exact store_init_kwargs_recapture C.params C.dflt args kwargs
  have h2 : c.is_trained = false → C.initTrained = false := by
    cases b with
    | false => intro h; simpa [hc, trainIf, construct] using h
    | true => intro h; simp [hc, trainIf] at h
  have h3 : c.batch_size = Value.vnone →
      (if C.setsBatch then
        effectiveArg C.params C.dflt [] c.initKwargs "batch_size"
      else Value.vnone) = Value.vnone := by
    intro h
    by_cases hs : C.setsBatch = true
    · rw [if_pos hs]
      rw [hik, effectiveArg_recapture C.params C.dflt args kwargs (hwf hs)]
      rw [hbs, if_pos hs] at h
      exact h
    · rw [if_neg hs]
  have hfix : yamlRoundTrip C c = c := yamlRoundTrip_fix C c h1 h2 h3
  rw [hfix, hfix]
  exact ⟨rfl, rfl⟩

/-- Witness for C1 at a concrete input: `Word2VecEncoder('/models/w2v')`,
not trained again after construction. -/
theorem c1_structured_roundtrip_twice_witness :
    ("batch_size" ∈ w2vClass.params) ∧
      (((yamlRoundTrip w2vClass (yamlRoundTrip w2vClass
          (trainIf false (construct w2vClass [Value.vstr "/models/w2v"] [])))).initKwargs =
        (trainIf false (construct w2vClass [Value.vstr "/models/w2v"] [])).initKwargs) ∧
      nonDefaultProps (yamlRoundTrip w2vClass (yamlRoundTrip w2vClass
          (trainIf false (construct w2vClass [Value.vstr "/models/w2v"] [])))) =
        nonDefaultProps (trainIf false (construct w2vClass [Value.vstr "/models/w2v"] []))) :=
  ⟨by decide, c1_structured_roundtrip_twice w2vClass [Value.vstr "/models/w2v"] [] false (by decide)⟩

/-- C6: for every operation wrapped by `_train_required`, invoking it while
the component is untrained fails with the precondition error ("training is
required before calling ..."), and the wrapped operation is not executed (the
outcome is independent of the wrapped function); invoking it while trained
delegates to the wrapped operation.  So the call errors out iff the component
is untrained. -/
theorem c6_train_required_guard {α : Type} (f g : Obj → α) (funcName : String)
    (o : Obj) :
    (trainRequired funcName f o =
        Except.error (NesError.preconditionError (trainRequiredMsg funcName)) ↔
      o.is_trained = false) ∧
    (o.is_trained = false → trainRequired funcName f o = trainRequired funcName g o) ∧
    (o.is_trained = true → trainRequired funcName f o = Except.ok (f o)) := by
  unfold trainRequired
  cases h : o.is_trained <;> simp

/-- Witness for C6 at concrete inputs: an untrained and a trained component,
with the guarded operation named "encode". -/
theorem c6_train_required_guard_witness :
    trainRequired "encode" (fun _ => Value.vnone)
        { initKwargs := [], is_trained := false, batch_size := Value.vnone } =
      Except.error (NesError.preconditionError (trainRequiredMsg "encode")) ∧
    trainRequired "encode" (fun _ => Value.vnone)
        { initKwargs := [], is_trained := true, batch_size := Value.vnone } =
      Except.ok Value.vnone :=
  ⟨(c6_train_required_guard (fun _ => Value.vnone) (fun _ => Value.vnone) "encode"
      { initKwargs := [], is_trained := false, batch_size := Value.vnone }).1.mpr rfl,
   (c6_train_required_guard (fun _ => Value.vnone) (fun _ => Value.vnone) "encode"
      { initKwargs := [], is_trained := true, batch_size := Value.vnone }).2.2 rfl⟩

/-- C7 counterexample: the claim "the trained-state flag is false immediately
after construction" is false for `Word2VecEncoder`, whose constructor sets
`self.is_trained = True` before any `train()` call. -/
theorem c7_trained_after_construction_counterexample :
    ¬ ((construct w2vClass [Value.vstr "/models/w2v"] []).is_trained = false) := by
  decide

/-- C7 amended: the trained-state flag is false immediately after
construction of a component whose constructor body does not override it
(`TrainableBase` leaves it false, but `Word2VecEncoder.__init__` sets it true
at construction), and the train wrapper sets the flag true exactly when the
wrapped train body completes without error (a failing body leaves no trained
result). -/
theorem c7_trained_flag_lifecycle {α : Type} :
    (∀ args kwargs, (construct baseClass args kwargs).is_trained = false) ∧
    (∀ args kwargs, (construct w2vClass args kwargs).is_trained = true) ∧
    (∀ (cn : String) (fb : Obj → Except NesError (α × Obj)) (o : Obj) (a : α) (o' : Obj),
      fb o = Except.ok (a, o') →
        (asTrainFunc cn fb o).2 = Except.ok (a, { o' with is_trained := true })) ∧
    (∀ (cn : String) (fb : Obj → Except NesError (α × Obj)) (o : Obj) (e : NesError),
      fb o = Except.error e → (asTrainFunc cn fb o).2 = Except.error e) := by
  refine ⟨fun args kwargs => rfl, fun args kwargs => rfl, ?_, ?_⟩
  · intro cn fb o a o' h
    unfold asTrainFunc
    rw [h]
  · intro cn fb o e h
    unfold asTrainFunc
    rw [h]

/-- Witness for C7 amended at concrete inputs: the base class constructed
with no arguments, `Word2VecEncoder('/models/w2v')`, and the default train
body (which succeeds) on an untrained component. -/
theorem c7_trained_flag_lifecycle_witness :
    ((construct baseClass [] []).is_trained = false) ∧
    ((construct w2vClass [Value.vstr "/models/w2v"] []).is_trained = true) ∧
    (asTrainFunc "TrainableBase" baseTrainBody
        { initKwargs := [], is_trained := false, batch_size := Value.vnone }).2 =
      Except.ok (Value.vnone,
        { initKwargs := [], is_trained := true, batch_size := Value.vnone }) :=
  ⟨(c7_trained_flag_lifecycle (α := Value)).1 [] [],
   (c7_trained_flag_lifecycle (α := Value)).2.1 [Value.vstr "/models/w2v"] [],
   (c7_trained_flag_lifecycle (α := Value)).2.2.1 "TrainableBase" baseTrainBody
     { initKwargs := [], is_trained := false, batch_size := Value.vnone }
     Value.vnone
     { initKwargs := [], is_trained := false, batch_size := Value.vnone } rfl⟩

/-- C8: two successive `train()` calls (with the default `pass` body) both
complete successfully; the first leaves the component trained, and the
second — invoked on the already-trained component — emits exactly the
warning that the previous training is being overridden and again leaves the
component trained. -/
theorem c8_train_twice (clsName : String) (o : Obj) :
    ∃ o1 : Obj,
      (asTrainFunc clsName baseTrainBody o).2 = Except.ok (Value.vnone, o1) ∧
      o1.is_trained = true ∧
      (asTrainFunc clsName baseTrainBody o1).1 = [overrideWarning clsName] ∧
      ∃ o2 : Obj,
        (asTrainFunc clsName baseTrainBody o1).2 = Except.ok (Value.vnone, o2) ∧
        o2.is_trained = true := by
  refine ⟨{ o with is_trained := true }, rfl, rfl, ?_, { o with is_trained := true }, rfl, rfl⟩
  simp [asTrainFunc, baseTrainBody]

theorem lookup_map_self_none {f : String → Value} {ps : List String} {k : String}
    (hk : k ∉ ps) :
    List.lookup k (ps.map (fun k' => (k', f k'))) = none := by
  induction ps with
  | nil => rfl
  | cons a as ih =>
    have hka : k ≠ a := fun h => hk (h ▸ List.mem_cons_self a as)
    simp only [List.map_cons, List.lookup, beq_false_of_ne hka]
    exact ih (fun h => hk (List.mem_cons_of_mem a h))

theorem effectiveArg_extra_kwarg (params : List String) (dflt : String → Value)
    (args : List Value) (kwargs : KwDict) {k : String} (v : Value)
    {k' : String} (hk : k ∉ params) (hk' : k' ∈ params) :
    effectiveArg params dflt args ((k, v) :: kwargs) k' =
      effectiveArg params dflt args kwargs k' := by
  have hne : k' ≠ k := fun h => hk (h ▸ hk')
  unfold effectiveArg
  simp only [List.lookup, beq_false_of_ne hne]

/-- C10: with `store_args_kwargs` disabled (its default), a keyword argument
whose name is not a declared constructor parameter is silently dropped by the
capture step: the constructed component is unchanged by its presence, the
captured configuration has no entry for it, the structured dump does not
mention it, and the structured round trip of the component therefore loses
it. -/
theorem c10_undeclared_kwarg_dropped (C : ClassDef) (args : List Value)
    (kwargs : KwDict) (k : String) (v : Value)
    (hk : k ∉ C.params) (hwf : C.setsBatch = true → "batch_size" ∈ C.params) :
    construct C args ((k, v) :: kwargs) = construct C args kwargs ∧
    List.lookup k (construct C args ((k, v) :: kwargs)).initKwargs = none ∧
    List.lookup k (dump_instance_to_yaml (construct C args ((k, v) :: kwargs))).parameter = none ∧
    yamlRoundTrip C (construct C args ((k, v) :: kwargs)) =
      yamlRoundTrip C (construct C args kwargs) := by
  have hcap : store_init_kwargs C.params C.dflt args ((k, v) :: kwargs) =
      store_init_kwargs C.params C.dflt args kwargs := by
    unfold store_init_kwargs
    exact List.map_congr_left
      (fun k' hk' => by rw [effectiveArg_extra_kwarg C.params C.dflt args kwargs v hk hk'])
  have hcon : construct C args ((k, v) :: kwargs) = construct C args kwargs := by
    unfold construct
    rw [hcap]
    by_cases hs : C.setsBatch = true
    · rw [if_pos hs, if_pos hs,
        effectiveArg_extra_kwarg C.params C.dflt args kwargs v hk (hwf hs)]
    · rw [if_neg hs, if_neg hs]
  refine ⟨hcon, ?_, ?_, by rw [hcon]⟩
  · rw [hcon]
    unfold construct store_init_kwargs
    exact lookup_map_self_none hk
  · rw [hcon]
    unfold dump_instance_to_yaml construct store_init_kwargs
    exact lookup_map_self_none hk

/-- Witness for C10 at a concrete input: `Word2VecEncoder('/models/w2v',
foo=7)` — `foo` is not a declared parameter of the constructor. -/
theorem c10_undeclared_kwarg_dropped_witness :
    construct w2vClass [Value.vstr "/models/w2v"] [("foo", Value.vint 7)] =
      construct w2vClass [Value.vstr "/models/w2v"] [] ∧
    List.lookup "foo"
      (construct w2vClass [Value.vstr "/models/w2v"] [("foo", Value.vint 7)]).initKwargs = none ∧
    List.lookup "foo"
      (dump_instance_to_yaml
        (construct w2vClass [Value.vstr "/models/w2v"] [("foo", Value.vint 7)])).parameter = none ∧
    yamlRoundTrip w2vClass (construct w2vClass [Value.vstr "/models/w2v"] [("foo", Value.vint 7)]) =
      yamlRoundTrip w2vClass (construct w2vClass [Value.vstr "/models/w2v"] []) :=
  c10_undeclared_kwarg_dropped w2vClass [Value.vstr "/models/w2v"] []
    "foo" (Value.vint 7) (by decide) (by decide)

theorem lookup_filter_ne (k k0 : String) :
    ∀ d : KwDict, List.lookup k (d.filter (fun kv => kv.1 != k0)) =
      if k = k0 then none else List.lookup k d := by
  intro d
  induction d with
  | nil => simp
  | cons a as ih =>
    obtain ⟨a1, a2⟩ := a
    by_cases h1 : a1 = k0
    · rw [List.filter_cons_of_neg (by simp [h1]), ih]
      by_cases hk : k = k0
      · rw [if_pos hk, if_pos hk]
      · have hb : (k == a1) = false := beq_false_of_ne (by rw [h1]; exact hk)
        rw [if_neg hk, if_neg hk, List.lookup_cons, hb]
    · rw [List.filter_cons_of_pos (by simp [h1])]
      by_cases hk : k = a1
      · have hkk0 : k ≠ k0 := by rw [hk]; exact h1
        have hb : (k == a1) = true := by simp [hk]
        rw [List.lookup_cons, List.lookup_cons, hb, if_neg hkk0]
      · have hb : (k == a1) = false := beq_false_of_ne hk
        rw [List.lookup_cons, List.lookup_cons, hb, ih]

theorem lookup_append_left_none {d e : KwDict} {k : String}
    (h : List.lookup k d = none) :
    List.lookup k (d ++ e) = List.lookup k e := by
  induction d with
  | nil => rfl
  | cons a as ih =>
    obtain ⟨a1, a2⟩ := a
    by_cases hka : k = a1
    · have hb : (k == a1) = true := by simp [hka]
      rw [List.lookup_cons, hb] at h
      cases h
    · have hb : (k == a1) = false := beq_false_of_ne hka
      rw [List.lookup_cons, hb] at h
      rw [List.cons_append, List.lookup_cons, hb]
      exact ih h

theorem lookup_map_replace_self (k : String) (v : Value) :
    ∀ d : KwDict, (List.lookup k d).isSome →
      List.lookup k (d.map (fun kv => if kv.1 = k then (k, v) else kv)) = some v := by
  intro d
  induction d with
  | nil => intro h; simp at h
  | cons a as ih =>
    intro h
    obtain ⟨a1, a2⟩ := a
    by_cases hak : a1 = k
    · have h1 : ((if (a1, a2).1 = k then (k, v) else (a1, a2)) : String × Value) = (k, v) :=
        if_pos hak
      rw [List.map_cons, h1, List.lookup_cons]
      simp
    · have h1 : ((if (a1, a2).1 = k then (k, v) else (a1, a2)) : String × Value) = (a1, a2) :=
        if_neg hak
      have hb : (k == a1) = false := beq_false_of_ne (fun hh => hak hh.symm)
      rw [List.lookup_cons, hb] at h
      rw [List.map_cons, h1, List.lookup_cons, hb]
      exact ih h

theorem lookup_map_replace_ne (k k' : String) (v : Value) (h : k' ≠ k) :
    ∀ d : KwDict,
      List.lookup k' (d.map (fun kv => if kv.1 = k then (k, v) else kv)) =
        List.lookup k' d := by
  intro d
  induction d with
  | nil => rfl
  | cons a as ih =>
    obtain ⟨a1, a2⟩ := a
    by_cases hak : a1 = k
    · have h1 : ((if (a1, a2).1 = k then (k, v) else (a1, a2)) : String × Value) = (k, v) :=
        if_pos hak
      have hb : (k' == k) = false := beq_false_of_ne h
      have hb' : (k' == a1) = false := beq_false_of_ne (hak ▸ h)
      rw [List.map_cons, h1, List.lookup_cons, List.lookup_cons, hb, hb']
      exact ih
    · have h1 : ((if (a1, a2).1 = k then (k, v) else (a1, a2)) : String × Value) = (a1, a2) :=
        if_neg hak
      rw [List.map_cons, h1, List.lookup_cons, List.lookup_cons]
      cases hkb : (k' == a1)
      · exact ih
      · rfl

theorem lookup_setKey_self (d : KwDict) (k : String) (v : Value) :
    List.lookup k (setKey d k v) = some v := by
  unfold setKey
  by_cases h : (List.lookup k d).isSome
  · rw [if_pos h]
    exact lookup_map_replace_self k v d h
  · rw [if_neg h]
    have hnone : List.lookup k d = none := by
      cases hl : List.lookup k d
      · rfl
      · rw [hl] at h; simp at h
    rw [lookup_append_left_none hnone, List.lookup_cons]
    simp

theorem lookup_setKey_ne (d : KwDict) (k k' : String) (v : Value)
    (h : k' ≠ k) :
    List.lookup k' (setKey d k v) = List.lookup k' d := by
  unfold setKey
  by_cases hs : (List.lookup k d).isSome
  · rw [if_pos hs]
    exact lookup_map_replace_ne k k' v h d
  · rw [if_neg hs]
    clear hs
    induction d with
    | nil => simp [List.lookup_cons, beq_false_of_ne h]
    | cons a as ih =>
      obtain ⟨a1, a2⟩ := a
      rw [List.cons_append, List.lookup_cons, List.lookup_cons]
      cases hkb : (k' == a1)
      · exact ih
      · rfl

/-- C9: the binary serialized form excludes exactly the two runtime handles
(`logger`, `memcached`) — and, for the encoder, also the loaded vector table
(`word2vec_df`) and the derived zero-vector (`empty`) — while all other
fields of the object state are persisted unchanged; on load the two handles
are re-created with the same initialization logic as at normal
construction. -/
theorem c9_binary_serialization_frame (cls : String) (d : KwDict)
    (hl : (List.lookup "logger" d).isSome)
    (hm : (List.lookup "memcached" d).isSome)
    (hw : (List.lookup "word2vec_df" d).isSome)
    (he : (List.lookup "empty" d).isSome) :
    BinaryFrameSpec cls d := by
  have h1 : delKey d "logger" = some (d.filter (fun kv => kv.1 != "logger")) := by
    unfold delKey; rw [if_pos hl]
  have hlk1 : ∀ k, List.lookup k (d.filter (fun kv => kv.1 != "logger")) =
      if k = "logger" then none else List.lookup k d :=
    fun k => lookup_filter_ne k "logger" d
  have hm1 : (List.lookup "memcached" (d.filter (fun kv => kv.1 != "logger"))).isSome := by
    rw [hlk1 "memcached", if_neg (by decide)]; exact hm
  have h2 : delKey (d.filter (fun kv => kv.1 != "logger")) "memcached" =
      some ((d.filter (fun kv => kv.1 != "logger")).filter (fun kv => kv.1 != "memcached")) := by
    unfold delKey; rw [if_pos hm1]
  have hgb : getstate_base d =
      some ((d.filter (fun kv => kv.1 != "logger")).filter (fun kv => kv.1 != "memcached")) := by
    unfold getstate_base
    rw [h1]
    exact h2
  have hlkb : ∀ k, List.lookup k
      ((d.filter (fun kv => kv.1 != "logger")).filter (fun kv => kv.1 != "memcached")) =
      if k = "memcached" then none else if k = "logger" then none else List.lookup k d := by
    intro k
    rw [lookup_filter_ne k "memcached" (d.filter (fun kv => kv.1 != "logger")), hlk1 k]
  have hw2 : (List.lookup "word2vec_df"
      ((d.filter (fun kv => kv.1 != "logger")).filter (fun kv => kv.1 != "memcached"))).isSome := by
    rw [hlkb "word2vec_df", if_neg (by decide), if_neg (by decide)]; exact hw
  have h3 : delKey
      ((d.filter (fun kv => kv.1 != "logger")).filter (fun kv => kv.1 != "memcached"))
      "word2vec_df" =
      some (((d.filter (fun kv => kv.1 != "logger")).filter
        (fun kv => kv.1 != "memcached")).filter (fun kv => kv.1 != "word2vec_df")) := by
    unfold delKey; rw [if_pos hw2]
  have hlk3 : ∀ k, List.lookup k (((d.filter (fun kv => kv.1 != "logger")).filter
      (fun kv => kv.1 != "memcached")).filter (fun kv => kv.1 != "word2vec_df")) =
      if k = "word2vec_df" then none
      else if k = "memcached" then none
      else if k = "logger" then none
      else List.lookup k d := by
    intro k
    rw [lookup_filter_ne k "word2vec_df", hlkb k]
  have he3 : (List.lookup "empty" (((d.filter (fun kv => kv.1 != "logger")).filter
      (fun kv => kv.1 != "memcached")).filter (fun kv => kv.1 != "word2vec_df"))).isSome := by
    rw [hlk3 "empty", if_neg (by decide), if_neg (by decide), if_neg (by decide)]; exact he
  have h4 : delKey (((d.filter (fun kv => kv.1 != "logger")).filter
      (fun kv => kv.1 != "memcached")).filter (fun kv => kv.1 != "word2vec_df")) "empty" =
      some ((((d.filter (fun kv => kv.1 != "logger")).filter
        (fun kv => kv.1 != "memcached")).filter
        (fun kv => kv.1 != "word2vec_df")).filter (fun kv => kv.1 != "empty")) := by
    unfold delKey; rw [if_pos he3]
  have hgw : getstate_w2v d = some ((((d.filter (fun kv => kv.1 != "logger")).filter
      (fun kv => kv.1 != "memcached")).filter
      (fun kv => kv.1 != "word2vec_df")).filter (fun kv => kv.1 != "empty")) := by
    unfold getstate_w2v
    rw [hgb]
    show ((delKey ((d.filter (fun kv => kv.1 != "logger")).filter
      (fun kv => kv.1 != "memcached")) "word2vec_df").bind fun d2 => delKey d2 "empty") = _
    rw [h3]
    exact h4
  have hlk4 : ∀ k, List.lookup k ((((d.filter (fun kv => kv.1 != "logger")).filter
      (fun kv => kv.1 != "memcached")).filter
      (fun kv => kv.1 != "word2vec_df")).filter (fun kv => kv.1 != "empty")) =
      if k = "empty" then none
      else if k = "word2vec_df" then none
      else if k = "memcached" then none
      else if k = "logger" then none
      else List.lookup k d := by
    intro k
    rw [lookup_filter_ne k "empty", hlk3 k]
  refine ⟨_, _, hgb, hgw, ?_, ?_, ?_, ?_, ?_, ?_, ?_, ?_, ?_, ?_, ?_⟩
  · intro k hkl hkm
    rw [hlkb k, if_neg hkm, if_neg hkl]
  · rw [hlkb "logger", if_neg (by decide), if_pos rfl]
  · rw [hlkb "memcached", if_pos rfl]
  · intro k hkl hkm hkw hke
    rw [hlk4 k, if_neg hke, if_neg hkw, if_neg hkm, if_neg hkl]
  · rw [hlk4 "logger", if_neg (by decide), if_neg (by decide), if_neg (by decide), if_pos rfl]
  · rw [hlk4 "memcached", if_neg (by decide), if_neg (by decide), if_pos rfl]
  · rw [hlk4 "word2vec_df", if_neg (by decide), if_pos rfl]
  · rw [hlk4 "empty", if_pos rfl]
  · unfold setstate_base
    rw [lookup_setKey_ne _ "memcached" "logger" _ (by decide),
      lookup_setKey_self]
  · unfold setstate_base
    rw [lookup_setKey_self]
  · intro k hkl hkm
    unfold setstate_base
    rw [lookup_setKey_ne _ "memcached" k _ hkm, lookup_setKey_ne _ "logger" k _ hkl]

/-- Witness for C9 at a concrete input: a fully initialized encoder state
dict (captured config, flags, the two runtime handles, model path, loaded
table and zero vector). -/
theorem c9_binary_serialization_frame_witness :
    ((List.lookup "logger" c9WitnessDict).isSome ∧
      (List.lookup "memcached" c9WitnessDict).isSome ∧
      (List.lookup "word2vec_df" c9WitnessDict).isSome ∧
      (List.lookup "empty" c9WitnessDict).isSome) ∧
    BinaryFrameSpec "Word2VecEncoder" c9WitnessDict :=
  ⟨⟨by decide, by decide, by decide, by decide⟩,
    c9_binary_serialization_frame "Word2VecEncoder" c9WitnessDict
      (by decide) (by decide) (by decide) (by decide)⟩

/-- C2 (code bug): on a two-token input whose tokens have vectors `[1,0]` and
`[3,0]`, the source `encode` raises `AttributeError` — its final line calls
`.astye(...)`, a typo for `.astype(...)` — instead of returning the
elementwise mean; with that one-character typo corrected, the claimed mean
`[2,0]` is produced. -/
theorem c2_encode_mean_code_bug :
    encode e0 tok0 ["a b"] = Except.error (EncodeError.attributeError "astye") ∧
    encodeFixed e0 tok0 ["a b"] = Except.ok [some [2, 0]] := by
  constructor
  · rfl
  · show Except.ok (encodePooled e0 tok0 ["a b"]) = Except.ok [some [2, 0]]
    congr 1
    simp [encodePooled, tok0, e0, df0, poolMean, vadd, List.lookup]
    norm_num

/-- C3 (code bug): the empty string tokenizes to zero tokens, and the pooled
value `encode` computes for it is `np.mean([], axis=0)` — NaN (modelled
`none`), not the zero vector — after which the call raises `AttributeError`
from the `astye` typo; the claimed zero-vector result appears nowhere in the
code. -/
theorem c3_empty_tokenization_code_bug :
    tok0 "" = [] ∧
    encodePooled e0 tok0 [""] = [Option.none] ∧
    encodePooled e0 tok0 [""] ≠ [some (zeroVec 2)] ∧
    encode e0 tok0 [""] = Except.error (EncodeError.attributeError "astye") := by
  refine ⟨by decide, by decide, by decide, rfl⟩

/-- C5 counterexample: with pooling strategy `REDUCE_MAX` (≠ mean), `encode`
does not fail with `UnsupportedConfiguration` — no such check exists in the
code. -/
theorem c5_pooling_counterexample :
    eMax.pooling_strategy ≠ "REDUCE_MEAN" ∧
    encode eMax tok0 ["a"] ≠ Except.error EncodeError.unsupportedConfiguration := by
  constructor
  · decide
  · intro h
    have : EncodeError.attributeError "astye" = EncodeError.unsupportedConfiguration :=
      Except.error.inj h
    cases this

/-- C5 amended: the configured pooling strategy is stored but never
consulted: `encode` (and the typo-corrected pooled computation, which applies
mean pooling unconditionally) behaves identically for every pooling strategy,
and never produces an `UnsupportedConfiguration` error. -/
theorem c5_pooling_ignored (df : List (String × List ℚ)) (em : List ℚ)
    (dim : Nat) (s s' : String) (tok : String → List String)
    (texts : List String) :
    encode { word2vec_df := df, empty := em, dimension := dim, pooling_strategy := s }
        tok texts =
      encode { word2vec_df := df, empty := em, dimension := dim, pooling_strategy := s' }
        tok texts ∧
    encodeFixed { word2vec_df := df, empty := em, dimension := dim, pooling_strategy := s }
        tok texts =
      encodeFixed { word2vec_df := df, empty := em, dimension := dim, pooling_strategy := s' }
        tok texts ∧
    encode { word2vec_df := df, empty := em, dimension := dim, pooling_strategy := s }
        tok texts ≠ Except.error EncodeError.unsupportedConfiguration := by
  refine ⟨rfl, rfl, ?_⟩
  intro h
  have : EncodeError.attributeError "astye" = EncodeError.unsupportedConfiguration :=
    Except.error.inj h
  cases this

theorem lookup_isSome_iff_mem_keys (df : List (String × List ℚ)) (k : String) :
    (List.lookup k df).isSome = true ↔ k ∈ df.map Prod.fst := by
  induction df with
  | nil => simp
  | cons a as ih =>
    obtain ⟨a1, a2⟩ := a
    by_cases hk : k = a1
    · have hb : (k == a1) = true := by simp [hk]
      rw [List.lookup_cons, hb]
      simp [hk]
    · have hb : (k == a1) = false := beq_false_of_ne hk
      rw [List.lookup_cons, hb]
      simp only [List.map_cons, List.mem_cons]
      rw [ih]
      constructor
      · exact Or.inr
      · rintro (h | h)
        · exact absurd h hk
        · exact h

theorem dictInsert_map_fst (df : List (String × List ℚ)) (k : String)
    (v : List ℚ) :
    (dictInsert df k v).map Prod.fst = insKey (df.map Prod.fst) k := by
  unfold dictInsert insKey
  by_cases h : (List.lookup k df).isSome
  · rw [if_pos h, if_pos ((lookup_isSome_iff_mem_keys df k).mp h)]
    rw [List.map_map]
    apply List.map_congr_left
    intro kv _
    by_cases hk : kv.1 = k
    · simp [hk]
    · simp [hk]
  · have hm : k ∉ df.map Prod.fst := fun hmem => by
      rw [← lookup_isSome_iff_mem_keys] at hmem
      exact h hmem
    rw [if_neg h, if_neg hm, List.map_append]
    rfl

theorem dictInsert_vec_len {dim : Nat} {df : List (String × List ℚ)}
    {k : String} {v : List ℚ}
    (hdf : ∀ kv ∈ df, dim ≤ kv.2.length) (hv : dim ≤ v.length) :
    ∀ kv ∈ dictInsert df k v, dim ≤ kv.2.length := by
  unfold dictInsert
  by_cases h : (List.lookup k df).isSome
  · rw [if_pos h]
    intro kv hkv
    obtain ⟨kv0, hkv0, heq⟩ := List.mem_map.mp hkv
    by_cases hk : kv0.1 = k
    · rw [if_pos hk] at heq
      rw [← heq]
      exact hv
    · rw [if_neg hk] at heq
      rw [← heq]
      exact hdf kv0 hkv0
  · rw [if_neg h]
    intro kv hkv
    rcases List.mem_append.mp hkv with hkv | hkv
    · exact hdf kv hkv
    · rw [List.mem_singleton.mp hkv]
      exact hv

theorem load_rows_map_fst (val : String → ℚ) (skiprows dim : Nat) :
    ∀ (ls : List (List String)) (count : Nat) (df : List (String × List ℚ)),
      (load_rows val skiprows dim count ls df).map Prod.fst =
        (qualTokens skiprows dim count ls).foldl insKey (df.map Prod.fst) := by
  intro ls
  induction ls with
  | nil => intro count df; rfl
  | cons line ls ih =>
    intro count df
    by_cases hc : count < skiprows
    · simp only [load_rows, qualTokens, if_pos hc]
      exact ih (count + 1) df
    · simp only [load_rows, qualTokens, if_neg hc]
      match line with
      | [] => exact ih count df
      | t :: rest =>
        by_cases hd : dim < (t :: rest).length
        · simp only [if_pos hd, List.foldl_cons]
          rw [ih count (dictInsert df t (rest.map val)), dictInsert_map_fst]
        · simp only [if_neg hd]
          exact ih count df

theorem load_rows_vec_len (val : String → ℚ) (skiprows dim : Nat) :
    ∀ (ls : List (List String)) (count : Nat) (df : List (String × List ℚ)),
      (∀ kv ∈ df, dim ≤ kv.2.length) →
      ∀ kv ∈ load_rows val skiprows dim count ls df, dim ≤ kv.2.length := by
  intro ls
  induction ls with
  | nil => intro count df hdf; exact hdf
  | cons line ls ih =>
    intro count df hdf
    by_cases hc : count < skiprows
    · simp only [load_rows, if_pos hc]
      exact ih (count + 1) df hdf
    · simp only [load_rows, if_neg hc]
      match line with
      | [] => exact ih count df hdf
      | t :: rest =>
        by_cases hd : dim < (t :: rest).length
        · simp only [if_pos hd]
          refine ih count (dictInsert df t (rest.map val))
            (dictInsert_vec_len hdf ?_)
          rw [List.length_map]
          exact Nat.lt_succ_iff.mp (by simpa using hd)
        · simp only [if_neg hd]
          exact ih count df hdf

/-- C4 counterexample: on a dimension-2 file with one header row, one
qualifying row of four fields, a duplicate-token row and a distinct-token
row of four fields, the loaded table has 2 entries while 3 non-header rows
have field count ≥ 3, and the retained vector for "b" has length 3, not 2 —
refuting both the exact-length-D clause and the retained-count clause of the
claim. -/
theorem c4_load_table_counterexample :
    (post_init val0 1 2 c4File).length = 2 ∧
    (qualTokens 1 2 0 c4File).length = 3 ∧
    List.lookup "b" (post_init val0 1 2 c4File) = some [1, 2, 3] ∧
    ¬ ((post_init val0 1 2 c4File).length = (qualTokens 1 2 0 c4File).length ∧
      ∀ kv ∈ post_init val0 1 2 c4File, kv.2.length = 2) := by
  refine ⟨by decide, by decide, by decide, ?_⟩
  rintro ⟨h1, -⟩
  rw [show (post_init val0 1 2 c4File).length = 2 by decide,
    show (qualTokens 1 2 0 c4File).length = 3 by decide] at h1
  cases h1

/-- C4 amended: after the header skip, a row is retained iff its field count
is at least `dim + 1`; every retained entry's vector has length at least
`dim` (the row's field count minus one, so exactly `dim` only for rows with
exactly `dim + 1` fields); and the retained entries are one per distinct
token among the qualifying rows (later duplicate rows overwrite earlier
entries in place), in first-occurrence order — so the table size is the
number of distinct qualifying tokens, not the number of qualifying rows. -/
theorem c4_load_table_shape (val : String → ℚ) (skiprows dim : Nat)
    (lines : List (List String)) :
    (∀ kv ∈ post_init val skiprows dim lines, dim ≤ kv.2.length) ∧
    (post_init val skiprows dim lines).map Prod.fst =
      (qualTokens skiprows dim 0 lines).foldl insKey [] := by
  constructor
  · exact load_rows_vec_len val skiprows dim lines 0 [] (by intro kv h; cases h)
  · exact load_rows_map_fst val skiprows dim lines 0 []

end Gnes
